import Mathlib

/-
Verification of the vehicle-damage-assessment pipeline.

Shallow embedding conventions:
* Python dicts with a fixed key set are Lean structures; a dict literal that
  omits keys becomes a structure with `Option` fields set to `none`.
* Python numbers (floats) are modelled as `ℚ`; `int(...)` is truncation
  toward zero (`pyInt`); `round(x, n)` is round-half-even at `n` digits
  (`pyRound2`, `pyRound1`), the idealisation of CPython's float `round`.
* Randomness (`random.uniform`, `random.randint`) and wall-clock times are
  explicit parameters: each draw the code makes is one parameter (or an
  oracle `ℕ → ℕ` consumed in order).
* External model inference (`self.model(image_path)`) is an input of type
  `Except String _`: `.error` models the call raising, `.ok` its boxes.
* A Python expression that would raise `KeyError`/`TypeError` on a missing
  state field is modelled by returning `none` from the enclosing function.
-/

namespace VDA

/-! ### Python numeric primitives -/

/-- CPython `int(q)`: truncation toward zero. -/
def pyInt (q : ℚ) : Int :=
  if q < 0 then -(Int.floor (-q)) else Int.floor q

/-- Round-half-even to an integer (CPython `round`'s tie rule). -/
def roundHalfEven (q : ℚ) : Int :=
  let n := Int.floor q
  let frac := q - (n : ℚ)
  if frac < 1/2 then n
  else if 1/2 < frac then n + 1
  else if n % 2 = 0 then n else n + 1

/-- CPython `round(q, d)` on our rational model of floats. -/
def pyRoundTo (d : ℕ) (q : ℚ) : ℚ :=
  (roundHalfEven (q * 10 ^ d) : ℚ) / 10 ^ d

def pyRound2 (q : ℚ) : ℚ := pyRoundTo 2 q

def pyRound1 (q : ℚ) : ℚ := pyRoundTo 1 q

/-! ### utils/geometry.py -/

/-- A bounding box `[x1, y1, x2, y2]` in image pixel space. -/
structure Box where
  x1 : ℚ
  y1 : ℚ
  x2 : ℚ
  y2 : ℚ
deriving DecidableEq

/-- `interArea` of `calculate_iou`: `max(0, xB - xA) * max(0, yB - yA)`
with `xA = max(boxA[0], boxB[0])`, `xB = min(boxA[2], boxB[2])`, etc. -/
def interArea (boxA boxB : Box) : ℚ :=
  max 0 (min boxA.x2 boxB.x2 - max boxA.x1 boxB.x1) *
    max 0 (min boxA.y2 boxB.y2 - max boxA.y1 boxB.y1)

/-- `(boxA[2] - boxA[0]) * (boxA[3] - boxA[1])`. -/
def boxArea (b : Box) : ℚ := (b.x2 - b.x1) * (b.y2 - b.y1)

/-- `unionArea = float(boxAArea + boxBArea - interArea)`. -/
def unionArea (boxA boxB : Box) : ℚ :=
  boxArea boxA + boxArea boxB - interArea boxA boxB

/-- `utils/geometry.py::calculate_iou`:
`iou = interArea / unionArea if unionArea > 0 else 0`. -/
def calculate_iou (boxA boxB : Box) : ℚ :=
  if unionArea boxA boxB > 0 then interArea boxA boxB / unionArea boxA boxB
  else 0

/-! ### agents/part_identification_agent.py -/

/-- One entry of a damage-detection result: `{"bbox": ..., "confidence": ...,
"damage_type": ...}` as built by `DamageDetectionAgent.process`. -/
structure Detection where
  bbox : Box
  confidence : ℚ
  damage_type : String
deriving DecidableEq

/-- One entry of `detected_parts`: `{"bbox": ..., "class_id": ...}`. -/
structure PartBox where
  bbox : Box
  class_id : ℕ
deriving DecidableEq

/-- The record appended to `damaged_parts` for a matched damage. -/
structure PartData where
  part_name : String
  part_id : String
  damage_percentage : ℕ
  bbox : Box
  damage_type : String
deriving DecidableEq

/-- `PART_CLASS_MAP` of part_identification_agent.py. -/
def PART_CLASS_MAP : List (ℕ × String) :=
  [(0, "back_bumper"), (1, "back_door"), (2, "back_glass"),
   (3, "back_left_door"), (4, "back_left_light"), (5, "back_light"),
   (6, "back_right_door"), (7, "back_right_light"), (8, "front_bumper"),
   (9, "front_door"), (10, "front_glass"), (11, "front_left_door"),
   (12, "front_left_light"), (13, "front_light"), (14, "front_right_door"),
   (15, "front_right_light"), (16, "hood"), (17, "left_mirror"),
   (18, "object"), (19, "right_mirror"), (20, "tailgate"), (21, "trunk"),
   (22, "wheel")]

/-- `PartIdentificationAgent.IOU_THRESHOLD = 0.01`. -/
def IOU_THRESHOLD : ℚ := 1/100

/-- The inner `for part in detected_parts` loop of
`PartIdentificationAgent.process`, carrying `best_iou` (initially `0`) and
`best_part_match` (initially `None`). -/
def bestMatchLoop (damage : Detection) :
    List PartBox → ℚ → Option PartBox → ℚ × Option PartBox
  | [], best_iou, best_part_match => (best_iou, best_part_match)
  | part :: rest, best_iou, best_part_match =>
    let iou := calculate_iou damage.bbox part.bbox
    if iou > best_iou then bestMatchLoop damage rest iou (some part)
    else bestMatchLoop damage rest best_iou best_part_match

/-- The `part_data` record built for a matched damage; the random
`random.randint(15, 60)` draw is the parameter `dpVal`. -/
def mkPartData (best_part_match : PartBox) (damage : Detection)
    (dpVal : ℕ) : PartData :=
  let part_name := (PART_CLASS_MAP.lookup best_part_match.class_id).getD "unknown_part"
  { part_name := part_name
    part_id := part_name.toUpper.take 4 ++ "-001"
    damage_percentage := dpVal
    bbox := damage.bbox
    damage_type := damage.damage_type }

/-- The part appended for one damage, if any: run the best-match loop, then
`if best_part_match and best_iou > self.IOU_THRESHOLD`. -/
def code_choice (damage : Detection) (detected_parts : List PartBox) :
    Option PartBox :=
  let r := bestMatchLoop damage detected_parts 0 none
  match r.2 with
  | some best_part_match =>
    if r.1 > IOU_THRESHOLD then some best_part_match else none
  | none => none

/-- The outer `for damage in damage_detections` loop of
`PartIdentificationAgent.process`; `dp` is the stream of
`random.randint(15, 60)` draws, `k` how many have been consumed. -/
def assocLoop (dp : ℕ → ℕ) (detected_parts : List PartBox) :
    List Detection → ℕ → List PartData
  | [], _ => []
  | damage :: rest, k =>
    match code_choice damage detected_parts with
    | some best_part_match =>
      mkPartData best_part_match damage (dp k) :: assocLoop dp detected_parts rest (k + 1)
    | none => assocLoop dp detected_parts rest k

/-- `{"damaged_parts": ..., "processing_time_ms": ...}`. -/
structure PartIdResult where
  damaged_parts : List PartData
  processing_time_ms : ℚ
deriving DecidableEq

/-- `PartIdentificationAgent.process`. `modelLoaded` is whether `self.model`
is set; `infer` stands for `self.model(image_path)` (its `detected_parts`
list on success, `.error` when inference raises); `tms` is the measured
elapsed time. -/
def partProcess (modelLoaded : Bool) (dp : ℕ → ℕ)
    (infer : Except String (List PartBox)) (tms : ℚ)
    (damage_detections : List Detection) : PartIdResult :=
  if !modelLoaded || damage_detections.isEmpty then
    { damaged_parts := [], processing_time_ms := tms }
  else
    match infer with
    | .error _ => { damaged_parts := [], processing_time_ms := tms }
    | .ok detected_parts =>
      { damaged_parts := assocLoop dp detected_parts damage_detections 0
        processing_time_ms := tms }

/-! ### Spec-side rendering of the part-association algorithm (spec §4.4).
These definitions follow the spec's words, to be compared with the
code-derived `assocLoop`: "for each damage (in input order, order of output
mirrors input order), scan all candidate part boxes, compute
`Overlap(damage.bbox, part.bbox)` for each via the Geometry module, and
select the part with the strictly greatest overlap value (first-seen wins
on exact ties)"; "if the best overlap does not exceed a fixed
minimum-overlap threshold, the damage produces no PartMatch". -/

/-- First-seen strict argmax of `f`: the running best is replaced only by a
strictly greater value, so on exact ties the earlier candidate wins. -/
def chase (f : PartBox → ℚ) (best : PartBox) : List PartBox → PartBox
  | [] => best
  | q :: rest => if f q > f best then chase f q rest else chase f best rest

/-- Spec §4.4: scan all candidate part boxes and select the strictly
greatest overlap, first-seen winning ties; `none` when there are no
candidates. Returns the selected part and its overlap value. -/
def spec_best_part (damage : Detection) :
    List PartBox → Option (PartBox × ℚ)
  | [] => none
  | p :: rest =>
    let q := chase (fun pb => calculate_iou damage.bbox pb.bbox) p rest
    some (q, calculate_iou damage.bbox q.bbox)

/-- Spec §4.4: the damage yields a match only when the best overlap exceeds
the minimum-overlap threshold; otherwise it is dropped, not defaulted. -/
def spec_choice (damage : Detection) (parts : List PartBox) :
    Option PartBox :=
  match spec_best_part damage parts with
  | none => none
  | some (q, best) => if best > IOU_THRESHOLD then some q else none

/-- Spec §4.4: damages processed in input order, output order mirroring
input order, one optional match per damage. -/
def spec_assoc (dp : ℕ → ℕ) (parts : List PartBox) :
    List Detection → ℕ → List PartData
  | [], _ => []
  | damage :: rest, k =>
    match spec_choice damage parts with
    | some q => mkPartData q damage (dp k) :: spec_assoc dp parts rest (k + 1)
    | none => spec_assoc dp parts rest k

/-! ### Claim theorems: geometry and part association -/

/-! ### utils/config.py and agents/severity_assessment_agent.py -/

/-- `SEVERITY_RULES` entry: `{"cost_range": [low, high], "repair_days": n}`. -/
structure Rule where
  cost_range : Int × Int
  repair_days : ℕ
deriving DecidableEq

/-- `utils/config.py::SEVERITY_RULES` (insertion order kept). -/
def SEVERITY_RULES : List (String × Rule) :=
  [("minor", ⟨(100, 500), 1⟩),
   ("moderate", ⟨(500, 3000), 3⟩),
   ("major", ⟨(3000, 10000), 7⟩),
   ("severe", ⟨(10000, 30000), 14⟩)]

/-- `utils/config.py::DAMAGE_TO_SEVERITY_MAPPING`. -/
def DAMAGE_TO_SEVERITY_MAPPING : List (String × String) :=
  [("scratch", "minor"), ("paint_damage", "minor"), ("dent", "moderate"),
   ("bent", "moderate"), ("crack", "major"), ("shatter", "major"),
   ("missing", "severe")]

/-- `severity_levels = {"minor": 1, "moderate": 2, "major": 3, "severe": 4}`
of `MockSeverityAssessmentAgent.process` (insertion order kept for the
reverse lookup below). -/
def severity_levels : List (String × ℕ) :=
  [("minor", 1), ("moderate", 2), ("major", 3), ("severe", 4)]

/-- `repair_category_map` of `MockSeverityAssessmentAgent.process`. -/
def repair_category_map : List (String × String) :=
  [("minor", "minor_cosmetic_repair"), ("moderate", "body_shop_required"),
   ("major", "significant_body_work"), ("severe", "potential_total_loss")]

/-- The per-part level computed in the severity loop:
`DAMAGE_TO_SEVERITY_MAPPING.get(damage_type, "moderate")` then
`severity_levels.get(severity_str, 2)`. (`part.get("damage_type", "dent")`
is the record field: the part records always carry `damage_type`.) -/
def severity_level_of (damage_type : String) : ℕ :=
  (severity_levels.lookup
    ((DAMAGE_TO_SEVERITY_MAPPING.lookup damage_type).getD "moderate")).getD 2

/-- The `for part in damaged_parts_data` running-max loop, starting from
`max_severity_level = 0`. -/
def code_max_severity_level (damaged_parts_data : List PartData) : ℕ :=
  damaged_parts_data.foldl
    (fun max_severity_level part =>
      let level := severity_level_of part.damage_type
      if level > max_severity_level then level else max_severity_level) 0

/-- `next((k for k, v in severity_levels.items() if v == m), "moderate")`. -/
def code_overall_severity (m : ℕ) : String :=
  ((severity_levels.find? (fun kv => kv.2 == m)).map Prod.fst).getD "moderate"

/-- The dict returned by `MockSeverityAssessmentAgent.process`. -/
structure SeverityResult where
  overall_severity : String
  severity_score : ℚ
  repair_category : Option String
  estimated_cost_range : Int × Int
  repair_time_days : ℕ
  processing_time_ms : ℚ
deriving DecidableEq

/-- `MockSeverityAssessmentAgent.process`. `rules` is the current state of
the module-level `SEVERITY_RULES` table; the returned second component is
its state after the call (the code's
`cost_range = assessment_rules["cost_range"]` aliases the list stored in
the table, so the two in-place `cost_range[i] = int(...)` jitter writes go
through to the table entry). The inner `getD ⟨(0, 0), 0⟩` stands for
`SEVERITY_RULES["moderate"]`, whose `KeyError` case is unreachable while
the table keeps its four keys. `u1, u2` are the `random.uniform(0.9, 1.1)` /
`random.uniform(1.0, 1.2)` draws, `u3` the `random.uniform(0, 1)` draw in
the severity score, `tms` the measured elapsed time. -/
def severityProcess (rules : List (String × Rule)) (u1 u2 u3 tms : ℚ)
    (damaged_parts_data : List PartData) :
    SeverityResult × List (String × Rule) :=
  if damaged_parts_data.isEmpty then
    ({ overall_severity := "no_damage_detected"
       severity_score := 0
       repair_category := some "none"
       estimated_cost_range := (0, 0)
       repair_time_days := 0
       processing_time_ms := tms }, rules)
  else
    let max_severity_level := code_max_severity_level damaged_parts_data
    let overall_severity := code_overall_severity max_severity_level
    let assessment_rules :=
      (rules.lookup overall_severity).getD
        ((rules.lookup "moderate").getD ⟨(0, 0), 0⟩)
    let repair_days := assessment_rules.repair_days
    let new_cost : Int × Int :=
      (pyInt ((assessment_rules.cost_range.1 : ℚ) * u1),
       pyInt ((assessment_rules.cost_range.2 : ℚ) * u2))
    let severity_score := pyRound1 ((max_severity_level : ℚ) * (5/2) - u3)
    let mutKey :=
      if (rules.lookup overall_severity).isSome then overall_severity
      else "moderate"
    let updatedRules := rules.map (fun kv =>
      if kv.1 = mutKey then (kv.1, { kv.2 with cost_range := new_cost })
      else kv)
    ({ overall_severity := overall_severity
       severity_score := severity_score
       repair_category := repair_category_map.lookup overall_severity
       estimated_cost_range := new_cost
       repair_time_days := repair_days
       processing_time_ms := tms }, updatedRules)

/-! ### Claim theorems: severity stage -/

/-- Example part matches for exercising the severity stage: a scratch
(minor) and a crack (major). -/
def c4parts : List PartData :=
  [⟨"front_bumper", "FRON-001", 30, ⟨0, 0, 10, 10⟩, "scratch"⟩,
   ⟨"left_door", "LEFT-001", 20, ⟨5, 5, 15, 15⟩, "crack"⟩]

/-- A single scratch match, used to exhibit the severity stage mutating the
`SEVERITY_RULES` table. -/
def c1part : PartData :=
  ⟨"front_bumper", "FRON-001", 30, ⟨0, 0, 10, 10⟩, "scratch"⟩

/-! ### agents/image_quality_agent.py and agents/damage_detection_agent.py
result shapes, orchestrator/graph_state.py, orchestrator/damage_assessment_graph.py -/

/-- The dict returned by the quality agent's `process`. -/
structure QualityResult where
  quality_score : ℚ
  issues : List String
  processable : Bool
  manipulation_detected : Bool
  processing_time_ms : ℚ
deriving DecidableEq

/-- `DAMAGE_CLASS_MAP` of damage_detection_agent.py. -/
def DAMAGE_CLASS_MAP : List (ℕ × String) :=
  [(0, "car-part-crack"), (1, "detachment"), (2, "glass-crack"),
   (3, "lamp-crack"), (4, "minor-deformation"), (5, "moderate-deformation"),
   (6, "paint-chips"), (7, "scratches"), (8, "severe-deformation"),
   (9, "side-mirror-crack"), (10, "flat-tire")]

/-- One raw YOLO box of the damage model: `box.xyxy`, `box.conf`, `box.cls`. -/
structure RawDet where
  bbox : Box
  conf : ℚ
  class_id : ℕ
deriving DecidableEq

/-- The dict returned by `DamageDetectionAgent.process`. -/
structure DetectionResult where
  detections : List Detection
  total_damage_area : ℚ
  processing_time_ms : ℚ
deriving DecidableEq

/-- `DamageDetectionAgent.process`. `modelLoaded` is whether `self.model` is
set (the no-model branch returns `processing_time_ms: 0`); `infer` stands
for `self.model(image_path)` (`.error` when inference raises); `areaDraw`
is the `random.uniform(5.0, 25.0)` draw for the mocked total damage area;
`tms` the measured elapsed time. -/
def detectionProcess (modelLoaded : Bool)
    (infer : Except String (List RawDet)) (areaDraw tms : ℚ) :
    DetectionResult :=
  if !modelLoaded then
    { detections := [], total_damage_area := 0, processing_time_ms := 0 }
  else
    match infer with
    | .error _ =>
      { detections := [], total_damage_area := 0, processing_time_ms := tms }
    | .ok raw =>
      let detections := raw.map (fun box =>
        { bbox := box.bbox
          confidence := pyRound2 box.conf
          damage_type := (DAMAGE_CLASS_MAP.lookup box.class_id).getD
            "unknown_damage" })
      { detections := detections
        total_damage_area := if detections.isEmpty then 0
          else pyRound2 areaDraw
        processing_time_ms := tms }

/-- The `quality_check` section of the final report: the rejection path
writes `{"passed": False, "issues": ...}`, the success path
`{"passed": True, "average_quality": ...}` (a missing key is `none`). -/
structure QualityCheckSection where
  passed : Bool
  issues : Option (List String)
  average_quality : Option ℚ
deriving DecidableEq

/-- One entry of the merged annotation list of `compile_final_report`. -/
structure Annot where
  damage_type : String
  part : String
  bbox : Box
  confidence : ℚ
  severity : String
deriving DecidableEq

/-- `{"image_id": ..., "detections": ...}`. -/
structure AnnotGroup where
  image_id : String
  detections : List Annot
deriving DecidableEq

/-- The `damage_summary` section of the final report. -/
structure DamageSummary where
  total_damages_found : ℕ
  affected_parts : List String
  overall_severity : String
  confidence_score : ℚ
deriving DecidableEq

/-- The `repair_estimate` section of the final report. -/
structure RepairEstimate where
  cost_range : Int × Int
  repair_days : ℕ
  category : Option String
deriving DecidableEq

/-- The `fraud_indicators` section of the final report. -/
structure FraudIndicators where
  image_manipulation_detected : Bool
  consistency_score : ℚ
deriving DecidableEq

/-- The `agent_metrics` section of the final report. -/
structure AgentMetrics where
  image_quality : Int
  damage_detection : Int
  part_identification : Int
  severity_assessment : Int
deriving DecidableEq

/-- The final report dict; sections the rejection path omits are `none`
(the rejection dict holds only `claim_id` and
`assessment_result.quality_check`). -/
structure Report where
  claim_id : String
  quality_check : QualityCheckSection
  damage_summary : Option DamageSummary
  annotations : Option (List AnnotGroup)
  repair_estimate : Option RepairEstimate
  fraud_indicators : Option FraudIndicators
  agent_metrics : Option AgentMetrics
deriving DecidableEq

/-- `orchestrator/graph_state.py::GraphState`. -/
structure GraphState where
  claim_id : String
  image_path : String
  processing_log : List String
  error_message : Option String
  quality_check_result : Option QualityResult
  damage_detection_result : Option DetectionResult
  part_identification_result : Option PartIdResult
  severity_assessment_result : Option SeverityResult
  final_report : Option Report
deriving DecidableEq

/-- The annotation built for one damaged part in `compile_final_report`:
`next((d['confidence'] for d in detections if d['bbox'] == part['bbox']),
0.9)` re-joins the detection confidence by exact bbox equality, defaulting
to `0.9`. -/
def mkAnnot (detections : List Detection) (part : PartData) : Annot :=
  { damage_type := part.damage_type
    part := part.part_name
    bbox := part.bbox
    confidence := ((detections.find? (fun d => d.bbox == part.bbox)).map
      Detection.confidence).getD (9/10)
    severity := (DAMAGE_TO_SEVERITY_MAPPING.lookup part.damage_type).getD
      "moderate" }

/-- `compile_final_report`. Returns `none` when a state field the code
subscripts is `None` (a Python `TypeError`); in the graph those fields are
always populated before this node runs. -/
def compile_final_report (state : GraphState) : Option GraphState :=
  let log := state.processing_log ++ ["Step 5: Compiling Final Report..."]
  match state.quality_check_result with
  | none => none
  | some quality_res =>
    if !quality_res.processable then
      some { state with
        processing_log := log ++ ["Process Halted: Image Rejected."]
        error_message := some "Image quality is too low to process."
        final_report := some
          { claim_id := state.claim_id
            quality_check :=
              { passed := false
                issues := some quality_res.issues
                average_quality := none }
            damage_summary := none
            annotations := none
            repair_estimate := none
            fraud_indicators := none
            agent_metrics := none } }
    else
      match state.damage_detection_result,
          state.part_identification_result,
          state.severity_assessment_result with
      | some damage_res, some part_res, some severity_res =>
        some { state with
          processing_log := log ++ ["Process Complete."]
          final_report := some
            { claim_id := state.claim_id
              quality_check :=
                { passed := true
                  issues := none
                  average_quality := some quality_res.quality_score }
              damage_summary := some
                { total_damages_found := damage_res.detections.length
                  affected_parts :=
                    part_res.damaged_parts.map PartData.part_name
                  overall_severity := severity_res.overall_severity
                  confidence_score :=
                    if damage_res.detections.isEmpty then 0
                    else pyRound2
                      ((damage_res.detections.map Detection.confidence).sum
                        / (damage_res.detections.length : ℚ)) }
              annotations := some
                [{ image_id := (state.image_path.splitOn "/").getLastD ""
                   detections :=
                     part_res.damaged_parts.map
                       (mkAnnot damage_res.detections) }]
              repair_estimate := some
                { cost_range := severity_res.estimated_cost_range
                  repair_days := severity_res.repair_time_days
                  category := severity_res.repair_category }
              fraud_indicators := some
                { image_manipulation_detected :=
                    quality_res.manipulation_detected
                  consistency_score := 19/20 }
              agent_metrics := some
                { image_quality := pyInt quality_res.processing_time_ms
                  damage_detection := pyInt damage_res.processing_time_ms
                  part_identification := pyInt part_res.processing_time_ms
                  severity_assessment :=
                    pyInt severity_res.processing_time_ms } } }
      | _, _, _ => none

/-- `run_quality_check`: the quality agent's output is the parameter `q`
(an external collaborator per spec §4.2). -/
def run_quality_check (q : QualityResult) (state : GraphState) : GraphState :=
  { state with
    processing_log :=
      state.processing_log ++ ["Step 1: Assessing Image Quality..."]
    quality_check_result := some q }

/-- `run_damage_detection`: `d` is the detection agent's output. -/
def run_damage_detection (d : DetectionResult) (state : GraphState) :
    GraphState :=
  { state with
    processing_log := state.processing_log ++ ["Step 2: Detecting Damage..."]
    damage_detection_result := some d }

/-- `run_part_identification` reads
`state['damage_detection_result']['detections']` (`none` models the Python
`TypeError` when that slot is unset) and invokes the part agent. -/
def run_part_identification (modelLoaded : Bool) (dp : ℕ → ℕ)
    (infer : Except String (List PartBox)) (tms : ℚ) (state : GraphState) :
    Option GraphState :=
  match state.damage_detection_result with
  | none => none
  | some dres => some { state with
      processing_log :=
        state.processing_log ++ ["Step 3: Identifying Damaged Parts..."]
      part_identification_result :=
        some (partProcess modelLoaded dp infer tms dres.detections) }

/-- `run_severity_assessment` reads
`state['part_identification_result']['damaged_parts']` and invokes the
severity agent (its table-mutation side effect is not observed through the
graph state). -/
def run_severity_assessment (rules : List (String × Rule))
    (u1 u2 u3 tms : ℚ) (state : GraphState) : Option GraphState :=
  match state.part_identification_result with
  | none => none
  | some pres => some { state with
      processing_log :=
        state.processing_log ++ ["Step 4: Assessing Severity..."]
      severity_assessment_result :=
        some (severityProcess rules u1 u2 u3 tms pres.damaged_parts).1 }

/-- `should_continue` of damage_assessment_graph.py. -/
def should_continue (state : GraphState) : Option String :=
  match state.quality_check_result with
  | none => none
  | some q =>
    some (if q.processable then "continue_processing"
          else "terminate_processing")

/-- The ambient inputs of one pipeline run: the quality agent's output, the
two YOLO model states and inference outcomes, and the random/time draws
each stage makes. -/
structure Env where
  quality : QualityResult
  detModelLoaded : Bool
  detInfer : Except String (List RawDet)
  detAreaDraw : ℚ
  detTime : ℚ
  partModelLoaded : Bool
  partInfer : Except String (List PartBox)
  partTime : ℚ
  dp : ℕ → ℕ
  rules : List (String × Rule)
  sevU1 : ℚ
  sevU2 : ℚ
  sevU3 : ℚ
  sevTime : ℚ

/-- One run of the compiled graph of `build_graph`: entry node
`quality_check`, the conditional edge on `should_continue`, then the
sequential edges to `compile_report`. The second component is the list of
node names invoked, in execution order. -/
def runGraph (env : Env) (s0 : GraphState) :
    Option (GraphState × List String) :=
  let s1 := run_quality_check env.quality s0
  match should_continue s1 with
  | none => none
  | some route =>
    if route = "continue_processing" then
      let s2 := run_damage_detection
        (detectionProcess env.detModelLoaded env.detInfer env.detAreaDraw
          env.detTime) s1
      match run_part_identification env.partModelLoaded env.dp env.partInfer
          env.partTime s2 with
      | none => none
      | some s3 =>
        match run_severity_assessment env.rules env.sevU1 env.sevU2 env.sevU3
            env.sevTime s3 with
        | none => none
        | some s4 =>
          match compile_final_report s4 with
          | none => none
          | some s5 =>
            some (s5, ["quality_check", "damage_detection",
              "part_identification", "severity_assessment", "compile_report"])
    else
      match compile_final_report s1 with
      | none => none
      | some s5 => some (s5, ["quality_check", "compile_report"])

/-! ### Claim theorems: orchestrator -/

/-- The mean as the spec words it: "the mean of all Detection confidences
(0 when no detections)" (`ℚ` division by zero is 0). -/
def spec_mean (l : List ℚ) : ℚ := l.sum / (l.length : ℚ)

/-- Quality result used by the concrete success-path inputs. -/
def cOkQuality : QualityResult := ⟨9/10, [], true, false, 100⟩

/-- Severity result used by the concrete success-path inputs. -/
def cOkSeverity : SeverityResult :=
  ⟨"no_damage_detected", 0, some "none", (0, 0), 0, 400⟩

/-- Detections with confidences 0.51, 0.52, 0.52: their mean 31/60 has more
than two decimal places, so the code's `round(..., 2)` changes it. -/
def c9dets : List Detection :=
  [⟨⟨0, 0, 10, 10⟩, 51/100, "scratches"⟩,
   ⟨⟨20, 20, 30, 30⟩, 52/100, "paint-chips"⟩,
   ⟨⟨40, 40, 50, 50⟩, 52/100, "scratches"⟩]

/-- A success-path state holding `c9dets`. -/
def c9state : GraphState :=
  ⟨"CLM-C9", "uploads/car.jpg", [], none, some cOkQuality,
   some ⟨c9dets, 10, 200⟩, some ⟨[], 300⟩, some cOkSeverity, none⟩

/-- A detection and a part match whose boxes differ, for the C10 witness. -/
def c10det : Detection := ⟨⟨0, 0, 10, 10⟩, 92/100, "scratches"⟩

/-- The part match paired with `c10det`; its box matches no detection. -/
def c10part : PartData := ⟨"hood", "HOOD-001", 30, ⟨100, 100, 200, 200⟩, "dent"⟩

/-- A concrete run environment whose quality gate rejects (a blurry image:
`processable = false` with a "blur" issue). -/
def c2env : Env :=
  { quality := ⟨1/2, ["blur"], false, false, 100⟩
    detModelLoaded := true
    detInfer := .ok []
    detAreaDraw := 10
    detTime := 50
    partModelLoaded := true
    partInfer := .ok []
    partTime := 60
    dp := fun _ => 30
    rules := SEVERITY_RULES
    sevU1 := 1
    sevU2 := 1
    sevU3 := 0
    sevTime := 70 }

/-- The initial state `ui/app.py` builds for a new claim. -/
def c2state0 : GraphState :=
  ⟨"CLM-3", "uploads/blurry_car.jpg", [], none, none, none, none, none, none⟩

lemma interArea_nonneg (boxA boxB : Box) : 0 ≤ interArea boxA boxB :=
  mul_nonneg (le_max_left 0 _) (le_max_left 0 _)

lemma calculate_iou_nonneg (boxA boxB : Box) : 0 ≤ calculate_iou boxA boxB := by
  unfold calculate_iou
  split
  · exact div_nonneg (interArea_nonneg boxA boxB) (le_of_lt (by assumption))
  · exact le_refl 0

lemma chase_congr (f : PartBox → ℚ) :
    ∀ (t : List PartBox) (a b : PartBox), f a = f b →
      chase f a t = chase f b t ∨ (chase f a t = a ∧ chase f b t = b) := by
  intro t
  induction t with
  | nil => intro a b _; right; exact ⟨rfl, rfl⟩
  | cons q rest ih =>
    intro a b hab
    by_cases hq : f q > f a
    · left
      rw [chase, chase, if_pos hq, if_pos (hab ▸ hq)]
    · have hq2 : ¬ f q > f b := hab ▸ hq
      rw [chase, chase, if_neg hq, if_neg hq2]
      exact ih a b hab

lemma bestMatchLoop_latched (damage : Detection) :
    ∀ (rest : List PartBox) (p0 : PartBox),
      bestMatchLoop damage rest (calculate_iou damage.bbox p0.bbox) (some p0)
        = (calculate_iou damage.bbox
             (chase (fun pb => calculate_iou damage.bbox pb.bbox) p0 rest).bbox,
           some (chase (fun pb => calculate_iou damage.bbox pb.bbox) p0 rest)) := by
  intro rest
  induction rest with
  | nil => intro p0; rfl
  | cons q t ih =>
    intro p0
    by_cases hq : calculate_iou damage.bbox q.bbox > calculate_iou damage.bbox p0.bbox
    · rw [bestMatchLoop, chase]
      simp only [if_pos hq]
      exact ih q
    · rw [bestMatchLoop, chase]
      simp only [if_neg hq]
      exact ih p0

lemma choice_eq (damage : Detection) :
    ∀ parts : List PartBox,
      code_choice damage parts = spec_choice damage parts := by
  intro parts
  induction parts with
  | nil => rfl
  | cons p rest ih =>
    by_cases hp : calculate_iou damage.bbox p.bbox > 0
    · unfold code_choice spec_choice spec_best_part
      rw [bestMatchLoop]
      simp only [if_pos hp, bestMatchLoop_latched]
    · have hp0 : calculate_iou damage.bbox p.bbox = 0 :=
        le_antisymm (not_lt.mp hp) (calculate_iou_nonneg _ _)
      have hcode : code_choice damage (p :: rest) = code_choice damage rest := by
        unfold code_choice
        rw [bestMatchLoop]
        simp only [if_neg hp]
      rw [hcode, ih]
      cases rest with
      | nil =>
        unfold spec_choice spec_best_part
        simp only [chase]
        rw [if_neg]
        rw [hp0]
        unfold IOU_THRESHOLD
        norm_num
      | cons r t =>
        by_cases hr : calculate_iou damage.bbox r.bbox >
            calculate_iou damage.bbox p.bbox
        · unfold spec_choice spec_best_part
          simp only [chase]
          rw [if_pos hr]
        · have hr0 : calculate_iou damage.bbox r.bbox = 0 :=
            le_antisymm (hp0 ▸ not_lt.mp hr) (calculate_iou_nonneg _ _)
          unfold spec_choice spec_best_part
          simp only [chase]
          rw [if_neg hr]
          rcases chase_congr (fun pb => calculate_iou damage.bbox pb.bbox) t p r
              (by simp only [hp0, hr0]) with h | ⟨h1, h2⟩
          · rw [h]
          · rw [h1, h2, hp0, hr0]
            unfold IOU_THRESHOLD
            norm_num

lemma assoc_eq (dp : ℕ → ℕ) (parts : List PartBox) :
    ∀ (damages : List Detection) (k : ℕ),
      assocLoop dp parts damages k = spec_assoc dp parts damages k := by
  intro damages
  induction damages with
  | nil => intro k; rfl
  | cons damage rest ih =>
    intro k
    rw [assocLoop, spec_assoc, choice_eq]
    cases spec_choice damage parts with
    | some q => simp only [ih]
    | none => exact ih k

lemma assocLoop_length (dp : ℕ → ℕ) (parts : List PartBox) :
    ∀ (damages : List Detection) (k : ℕ),
      (assocLoop dp parts damages k).length ≤ damages.length := by
  intro damages
  induction damages with
  | nil => intro k; exact Nat.le_refl 0
  | cons damage rest ih =>
    intro k
    rw [assocLoop]
    cases code_choice damage parts with
    | some q =>
      simpa using Nat.succ_le_succ (ih (k + 1))
    | none =>
      exact Nat.le_trans (ih k) (Nat.le_succ _)

lemma assocLoop_bbox (dp : ℕ → ℕ) (parts : List PartBox) :
    ∀ (damages : List Detection) (k : ℕ) (m : PartData),
      m ∈ assocLoop dp parts damages k →
        ∃ d ∈ damages, m.bbox = d.bbox := by
  intro damages
  induction damages with
  | nil => intro k m h; simp [assocLoop] at h
  | cons damage rest ih =>
    intro k m h
    rw [assocLoop] at h
    cases hc : code_choice damage parts with
    | some q =>
      rw [hc] at h
      rcases List.mem_cons.mp h with h1 | h2
      · exact ⟨damage, List.mem_cons_self _ _, by rw [h1]; rfl⟩
      · rcases ih (k + 1) m h2 with ⟨d, hd, hbb⟩
        exact ⟨d, List.mem_cons_of_mem _ hd, hbb⟩
    | none =>
      rw [hc] at h
      rcases ih k m h with ⟨d, hd, hbb⟩
      exact ⟨d, List.mem_cons_of_mem _ hd, hbb⟩

/-- C6: the overlap computation is total and never raises: for every pair of
boxes the result is defined and non-negative, the intersection extent is
clamped to zero when the computed width or height is non-positive (disjoint
or degenerate boxes give intersection area 0), and when the union area is
zero the result is 0 rather than a division-by-zero error. -/
theorem C6_iou_total (boxA boxB : Box) :
    0 ≤ calculate_iou boxA boxB ∧
    ((min boxA.x2 boxB.x2 - max boxA.x1 boxB.x1 ≤ 0 ∨
      min boxA.y2 boxB.y2 - max boxA.y1 boxB.y1 ≤ 0) →
      interArea boxA boxB = 0) ∧
    (unionArea boxA boxB = 0 → calculate_iou boxA boxB = 0) := by
  refine ⟨calculate_iou_nonneg boxA boxB, ?_, ?_⟩
  · intro h
    unfold interArea
    rcases h with h | h
    · rw [max_eq_left h, zero_mul]
    · rw [max_eq_left h, mul_zero]
  · intro h
    unfold calculate_iou
    rw [if_neg]
    rw [h]
    exact lt_irrefl 0

/-- Witness for C6 at the degenerate box `[0, 0, 0, 0]`: both implications
fire and the result is 0, not an error. -/
theorem C6_iou_total_witness :
    interArea ⟨0, 0, 0, 0⟩ ⟨0, 0, 0, 0⟩ = 0 ∧
    calculate_iou ⟨0, 0, 0, 0⟩ ⟨0, 0, 0, 0⟩ = 0 :=
  ⟨(C6_iou_total ⟨0, 0, 0, 0⟩ ⟨0, 0, 0, 0⟩).2.1 (Or.inl (by norm_num)),
   (C6_iou_total ⟨0, 0, 0, 0⟩ ⟨0, 0, 0, 0⟩).2.2 (by
     unfold unionArea interArea boxArea
     norm_num)⟩

/-- C3: part association processes damages in input order with the output
order mirroring the input order; for each damage it selects, among all
candidate part boxes, the one with the strictly greatest IoU overlap with
the damage's bounding box (first-seen candidate winning exact ties), and if
the best overlap does not exceed the minimum-overlap threshold the damage
yields no PartMatch at all: the association loop of
`PartIdentificationAgent.process` coincides with the spec-worded algorithm
`spec_assoc`. -/
theorem C3_assoc_refines_spec (dp : ℕ → ℕ) (detected_parts : List PartBox)
    (damage_detections : List Detection) (k : ℕ) :
    assocLoop dp detected_parts damage_detections k
      = spec_assoc dp detected_parts damage_detections k :=
  assoc_eq dp detected_parts damage_detections k

/-- C8: for every list of damage detections and every set of candidate part
boxes, `PartIdentificationAgent.process` produces at most one PartMatch per
input damage, and every output PartMatch's bounding box equals the bounding
box of some input damage exactly. -/
theorem C8_at_most_one_match_bbox_from_damage (modelLoaded : Bool)
    (dp : ℕ → ℕ) (infer : Except String (List PartBox)) (tms : ℚ)
    (damage_detections : List Detection) :
    (partProcess modelLoaded dp infer tms damage_detections).damaged_parts.length
        ≤ damage_detections.length ∧
    ∀ m ∈ (partProcess modelLoaded dp infer tms damage_detections).damaged_parts,
      ∃ d ∈ damage_detections, m.bbox = d.bbox := by
  unfold partProcess
  split
  · exact ⟨Nat.zero_le _, by intro m hm; simp at hm⟩
  · cases infer with
    | error e => exact ⟨Nat.zero_le _, by intro m hm; simp at hm⟩
    | ok detected_parts =>
      exact ⟨assocLoop_length dp detected_parts damage_detections 0,
        fun m hm => assocLoop_bbox dp detected_parts damage_detections 0 m hm⟩

/-! ### Lemmas about the running-max loop and the level tables -/

lemma lookup_val_mem {α β : Type} [BEq α] :
    ∀ (l : List (α × β)) (a : α) (b : β),
      l.lookup a = some b → b ∈ l.map Prod.snd := by
  intro l
  induction l with
  | nil => intro a b hab; simp [List.lookup] at hab
  | cons kv t ih =>
    obtain ⟨k, v⟩ := kv
    intro a b hab
    rw [List.lookup] at hab
    cases hak : a == k with
    | true =>
      rw [hak] at hab
      simp only [Option.some.injEq] at hab
      simp [hab]
    | false =>
      rw [hak] at hab
      simp only [List.map_cons, List.mem_cons]
      exact Or.inr (ih a b hab)

lemma mapping_values (dt s : String)
    (h : DAMAGE_TO_SEVERITY_MAPPING.lookup dt = some s) :
    s = "minor" ∨ s = "moderate" ∨ s = "major" ∨ s = "severe" := by
  have hm := lookup_val_mem DAMAGE_TO_SEVERITY_MAPPING dt s h
  simp only [DAMAGE_TO_SEVERITY_MAPPING, List.map_cons, List.map_nil,
    List.mem_cons, List.not_mem_nil, or_false] at hm
  tauto

lemma severity_level_of_cases (dt : String) :
    severity_level_of dt = 1 ∨ severity_level_of dt = 2 ∨
      severity_level_of dt = 3 ∨ severity_level_of dt = 4 := by
  cases h : DAMAGE_TO_SEVERITY_MAPPING.lookup dt with
  | none =>
    unfold severity_level_of
    rw [h]
    decide
  | some s =>
    unfold severity_level_of
    rw [h]
    rcases mapping_values dt s h with rfl | rfl | rfl | rfl <;> decide

lemma severity_level_of_pos (dt : String) : 1 ≤ severity_level_of dt := by
  rcases severity_level_of_cases dt with h | h | h | h <;> omega

lemma foldl_runmax_start {α : Type} (f : α → ℕ) :
    ∀ (l : List α) (a : ℕ),
      a ≤ l.foldl (fun m x => if f x > m then f x else m) a := by
  intro l
  induction l with
  | nil => intro a; exact le_refl a
  | cons x t ih =>
    intro a
    rw [List.foldl_cons]
    refine le_trans ?_ (ih _)
    by_cases hx : f x > a
    · rw [if_pos hx]; exact le_of_lt hx
    · rw [if_neg hx]

lemma foldl_runmax_bound {α : Type} (f : α → ℕ) :
    ∀ (l : List α) (a : ℕ) (x : α), x ∈ l →
      f x ≤ l.foldl (fun m y => if f y > m then f y else m) a := by
  intro l
  induction l with
  | nil => intro a x hx; simp at hx
  | cons y t ih =>
    intro a x hx
    rw [List.foldl_cons]
    rcases List.mem_cons.mp hx with rfl | hx
    · refine le_trans ?_ (foldl_runmax_start f t _)
      by_cases hy : f x > a
      · rw [if_pos hy]
      · rw [if_neg hy]; exact not_lt.mp hy
    · exact ih _ x hx

lemma foldl_runmax_attained {α : Type} (f : α → ℕ) :
    ∀ (l : List α) (a : ℕ),
      l.foldl (fun m y => if f y > m then f y else m) a = a ∨
        ∃ x ∈ l, l.foldl (fun m y => if f y > m then f y else m) a = f x := by
  intro l
  induction l with
  | nil => intro a; left; rfl
  | cons y t ih =>
    intro a
    rw [List.foldl_cons]
    by_cases hy : f y > a
    · rw [if_pos hy]
      rcases ih (f y) with h | ⟨x, hx, hfx⟩
      · right; exact ⟨y, List.mem_cons_self _ _, h⟩
      · right; exact ⟨x, List.mem_cons_of_mem _ hx, hfx⟩
    · rw [if_neg hy]
      rcases ih a with h | ⟨x, hx, hfx⟩
      · left; exact h
      · right; exact ⟨x, List.mem_cons_of_mem _ hx, hfx⟩

/-- C4: for every non-empty list of part matches, `overall_severity` names a
severity level (an entry of `severity_levels`, ordered minor < moderate <
major < severe by rank) whose rank is exactly the maximum rank implied by
the damage types of the matches, each mapped through
`DAMAGE_TO_SEVERITY_MAPPING` with unmapped damage types treated as
"moderate" (rank 2) rather than failing. -/
theorem C4_overall_is_max_level (rules : List (String × Rule))
    (u1 u2 u3 tms : ℚ) (parts : List PartData) (h : parts ≠ []) :
    ∃ lv : ℕ,
      severity_levels.lookup
          (severityProcess rules u1 u2 u3 tms parts).1.overall_severity
        = some lv
      ∧ (∀ p ∈ parts, severity_level_of p.damage_type ≤ lv)
      ∧ (∃ p ∈ parts, severity_level_of p.damage_type = lv)
      ∧ (∀ dt, DAMAGE_TO_SEVERITY_MAPPING.lookup dt = none →
          severity_level_of dt = 2) := by
  obtain ⟨q, t, rfl⟩ := List.exists_cons_of_ne_nil h
  have hov : (severityProcess rules u1 u2 u3 tms (q :: t)).1.overall_severity
      = code_overall_severity (code_max_severity_level (q :: t)) := rfl
  have hMeq : code_max_severity_level (q :: t)
      = (q :: t).foldl
          (fun m y => if severity_level_of y.damage_type > m
            then severity_level_of y.damage_type else m) 0 := rfl
  refine ⟨code_max_severity_level (q :: t), ?_, ?_, ?_, ?_⟩
  · rcases foldl_runmax_attained
        (fun y : PartData => severity_level_of y.damage_type) (q :: t) 0 with
      h0 | ⟨p, hp, hfp⟩
    · exfalso
      have hb := foldl_runmax_bound
        (fun y : PartData => severity_level_of y.damage_type) (q :: t) 0 q
        (List.mem_cons_self _ _)
      rw [h0] at hb
      have hb2 : severity_level_of q.damage_type ≤ 0 := hb
      have := severity_level_of_pos q.damage_type
      omega
    · have hMfp : code_max_severity_level (q :: t)
          = severity_level_of p.damage_type := hMeq.trans hfp
      rcases severity_level_of_cases p.damage_type with hc | hc | hc | hc <;>
        rw [hov, hMfp, hc] <;> decide
  · intro p hp
    rw [hMeq]
    exact foldl_runmax_bound
      (fun y : PartData => severity_level_of y.damage_type) (q :: t) 0 p hp
  · rcases foldl_runmax_attained
        (fun y : PartData => severity_level_of y.damage_type) (q :: t) 0 with
      h0 | ⟨p, hp, hfp⟩
    · exfalso
      have hb := foldl_runmax_bound
        (fun y : PartData => severity_level_of y.damage_type) (q :: t) 0 q
        (List.mem_cons_self _ _)
      rw [h0] at hb
      have hb2 : severity_level_of q.damage_type ≤ 0 := hb
      have := severity_level_of_pos q.damage_type
      omega
    · exact ⟨p, hp, (hMeq.trans hfp).symm⟩
  · intro dt hdt
    unfold severity_level_of
    rw [hdt]
    decide

/-- Witness for C4 on a concrete scratch + crack input. -/
theorem C4_overall_is_max_level_witness :
    c4parts ≠ [] ∧
    ∃ lv : ℕ,
      severity_levels.lookup
          (severityProcess SEVERITY_RULES 1 1 0 0 c4parts).1.overall_severity
        = some lv
      ∧ (∀ p ∈ c4parts, severity_level_of p.damage_type ≤ lv)
      ∧ (∃ p ∈ c4parts, severity_level_of p.damage_type = lv)
      ∧ (∀ dt, DAMAGE_TO_SEVERITY_MAPPING.lookup dt = none →
          severity_level_of dt = 2) :=
  ⟨by decide, C4_overall_is_max_level SEVERITY_RULES 1 1 0 0 c4parts (by decide)⟩

/-- C7: calling the severity stage with an empty list of part matches
returns `overall_severity = "no_damage_detected"` with cost range `[0, 0]`
and repair time 0 days — a branch distinct from the minor/moderate/major/
severe levels (it is no entry of the level table), not an error. -/
theorem C7_empty_input (rules : List (String × Rule)) (u1 u2 u3 tms : ℚ) :
    (severityProcess rules u1 u2 u3 tms []).1.overall_severity
        = "no_damage_detected"
    ∧ (severityProcess rules u1 u2 u3 tms []).1.estimated_cost_range = (0, 0)
    ∧ (severityProcess rules u1 u2 u3 tms []).1.repair_time_days = 0
    ∧ severity_levels.lookup "no_damage_detected" = none :=
  ⟨rfl, rfl, rfl, by decide⟩

/-- C1 (code bug): one severity call on a scratch match with jitter draws
`u1 = 0.9`, `u2 = 1.0` leaves the `SEVERITY_RULES` table changed — the
in-place jitter writes go through the alias
`cost_range = assessment_rules["cost_range"]` into the table, whose
"minor" entry afterwards reads `[90, 500]` instead of `[100, 500]`. -/
theorem C1_jitter_mutates_rules :
    (severityProcess SEVERITY_RULES (9/10) 1 0 0 [c1part]).2 ≠ SEVERITY_RULES
    ∧ (severityProcess SEVERITY_RULES (9/10) 1 0 0 [c1part]).2.lookup "minor"
        = some ⟨(90, 500), 1⟩
    ∧ SEVERITY_RULES.lookup "minor" = some ⟨(100, 500), 1⟩ := by
  have hM : code_max_severity_level [c1part] = 1 := by decide
  have hov : code_overall_severity 1 = "minor" := by decide
  have hc1 : pyInt (((100 : Int) : ℚ) * (9/10)) = 90 := by norm_num [pyInt]
  have hc2 : pyInt (((500 : Int) : ℚ) * 1) = 500 := by norm_num [pyInt]
  have h2 : (severityProcess SEVERITY_RULES (9/10) 1 0 0 [c1part]).2
      = [("minor", ⟨(90, 500), 1⟩), ("moderate", ⟨(500, 3000), 3⟩),
         ("major", ⟨(3000, 10000), 7⟩), ("severe", ⟨(10000, 30000), 14⟩)] := by
    simp only [severityProcess, List.isEmpty_cons, Bool.false_eq_true,
      if_false, hM, hov]
    simp only [SEVERITY_RULES, List.lookup, List.map, reduceIte,
      Option.getD_some, Option.isSome_some]
    simp only [List.cons.injEq, Prod.mk.injEq, Rule.mk.injEq, and_true,
      true_and]
    constructor
    · norm_num [pyInt]
    · exact ⟨by decide, by decide, by decide⟩
  refine ⟨?_, ?_, by decide⟩
  · rw [h2]
    decide
  · rw [h2]
    decide

/-- C2: for every claim whose quality-check result has `processable =
false`, the orchestrator takes the rejection branch: the detection,
part-mapping and severity nodes are never invoked (the executed-node trace
omits them), and the final report carries only the claim identifier and a
`quality_check` section with `passed = false` and the quality issues — the
`damage_summary`, `annotations` and `repair_estimate` sections (and the
other success-path sections) are absent. -/
theorem C2_rejection_path (env : Env) (s0 : GraphState)
    (h : env.quality.processable = false) :
    ∃ st trace, runGraph env s0 = some (st, trace)
      ∧ "damage_detection" ∉ trace
      ∧ "part_identification" ∉ trace
      ∧ "severity_assessment" ∉ trace
      ∧ ∃ r, st.final_report = some r
        ∧ r.claim_id = s0.claim_id
        ∧ r.quality_check.passed = false
        ∧ r.quality_check.issues = some env.quality.issues
        ∧ r.damage_summary = none
        ∧ r.annotations = none
        ∧ r.repair_estimate = none
        ∧ r.fraud_indicators = none
        ∧ r.agent_metrics = none := by
  unfold runGraph should_continue run_quality_check compile_final_report
  simp only [h, Bool.false_eq_true, if_false, Bool.not_false, if_true]
  exact ⟨_, _, rfl, by decide, by decide, by decide, _, rfl, rfl, rfl, rfl,
    rfl, rfl, rfl, rfl, rfl⟩

/-- Witness for C2 on the concrete rejecting environment `c2env`. -/
theorem C2_rejection_path_witness :
    c2env.quality.processable = false ∧
    ∃ st trace, runGraph c2env c2state0 = some (st, trace)
      ∧ "damage_detection" ∉ trace
      ∧ "part_identification" ∉ trace
      ∧ "severity_assessment" ∉ trace
      ∧ ∃ r, st.final_report = some r
        ∧ r.claim_id = c2state0.claim_id
        ∧ r.quality_check.passed = false
        ∧ r.quality_check.issues = some c2env.quality.issues
        ∧ r.damage_summary = none
        ∧ r.annotations = none
        ∧ r.repair_estimate = none
        ∧ r.fraud_indicators = none
        ∧ r.agent_metrics = none :=
  ⟨rfl, C2_rejection_path c2env c2state0 rfl⟩

/-- C5: no exception crosses the orchestrator boundary: for every
combination of quality outcome, model availability, inference outcomes
(including raising ones, the `.error` cases) and random/time draws, one
pipeline run returns exactly one final state whose `final_report` is set —
the run is a total function that always produces a report. -/
theorem C5_pipeline_total (env : Env) (s0 : GraphState) :
    ∃ st trace, runGraph env s0 = some (st, trace)
      ∧ st.final_report.isSome = true := by
  cases h : env.quality.processable with
  | false =>
    unfold runGraph should_continue run_quality_check compile_final_report
    simp only [h, Bool.false_eq_true, if_false, Bool.not_false, if_true]
    exact ⟨_, _, rfl, rfl⟩
  | true =>
    unfold runGraph should_continue run_quality_check run_damage_detection
      run_part_identification run_severity_assessment compile_final_report
    simp only [h, if_true, Bool.not_true, Bool.false_eq_true, if_false]
    exact ⟨_, _, rfl, rfl⟩

/-- C9 (amended): on the success path the report's aggregate confidence
score equals the mean of all Detection confidences rounded to two decimal
places (round-half-even), and equals 0 when the detection list is empty. -/
theorem C9_confidence_is_rounded_mean (cid ipath : String)
    (log : List String) (q : QualityResult) (dres : DetectionResult)
    (pres : PartIdResult) (sres : SeverityResult)
    (h : q.processable = true) :
    ∃ st r ds,
      compile_final_report
          ⟨cid, ipath, log, none, some q, some dres, some pres, some sres,
           none⟩ = some st
      ∧ st.final_report = some r
      ∧ r.damage_summary = some ds
      ∧ ds.confidence_score =
          (if dres.detections.isEmpty then 0
           else pyRound2
             (spec_mean (dres.detections.map Detection.confidence))) := by
  unfold compile_final_report
  simp only [h, Bool.not_true, Bool.false_eq_true, if_false]
  refine ⟨_, _, _, rfl, rfl, rfl, ?_⟩
  simp [spec_mean]

/-- Witness for C9 (amended) at a concrete success-path state. -/
theorem C9_confidence_is_rounded_mean_witness :
    ∃ st r ds,
      compile_final_report
          ⟨"CLM-1", "uploads/car.jpg", [], none, some cOkQuality,
           some ⟨[⟨⟨0, 0, 10, 10⟩, 1/2, "scratches"⟩], 10, 200⟩,
           some ⟨[], 300⟩, some cOkSeverity, none⟩ = some st
      ∧ st.final_report = some r
      ∧ r.damage_summary = some ds
      ∧ ds.confidence_score =
          (if ([⟨⟨0, 0, 10, 10⟩, 1/2, "scratches"⟩] : List Detection).isEmpty
           then 0
           else pyRound2 (spec_mean
             (([⟨⟨0, 0, 10, 10⟩, 1/2, "scratches"⟩] : List Detection).map
               Detection.confidence))) :=
  C9_confidence_is_rounded_mean "CLM-1" "uploads/car.jpg" [] cOkQuality
    ⟨[⟨⟨0, 0, 10, 10⟩, 1/2, "scratches"⟩], 10, 200⟩ ⟨[], 300⟩ cOkSeverity rfl

/-- Counterexample to C9 as stated: at `c9state` the report's
`confidence_score` is 0.52 while the mean of the detection confidences is
31/60 ≈ 0.5167 — the score is the rounded mean, not the mean. -/
theorem C9_counterexample :
    ∃ st r ds, compile_final_report c9state = some st
      ∧ st.final_report = some r
      ∧ r.damage_summary = some ds
      ∧ ds.confidence_score = 13/25
      ∧ spec_mean (c9dets.map Detection.confidence) = 31/60
      ∧ (13/25 : ℚ) ≠ 31/60 := by
  have hmean : ((c9dets.map Detection.confidence).sum
      / (c9dets.length : ℚ)) = 31/60 := by
    simp only [c9dets, List.map_cons, List.map_nil, List.sum_cons,
      List.sum_nil, List.length_cons, List.length_nil]
    norm_num
  have hround : pyRound2 (31/60 : ℚ) = 13/25 := by
    unfold pyRound2 pyRoundTo roundHalfEven
    norm_num
  unfold c9state compile_final_report
  simp only [cOkQuality, Bool.not_true, Bool.false_eq_true, if_false]
  refine ⟨_, _, _, rfl, rfl, rfl, ?_, ?_, by norm_num⟩
  · show (if c9dets.isEmpty then 0
      else pyRound2 ((c9dets.map Detection.confidence).sum
        / (c9dets.length : ℚ))) = 13/25
    rw [hmean]
    rw [if_neg (by decide)]
    exact hround
  · unfold spec_mean
    rw [List.length_map]
    exact hmean

/-- C10: in the report compiler's bounding-box-equality join, a PartMatch
whose bounding box equals no detection's bounding box still yields an
annotation, and its confidence silently defaults to 0.9. -/
theorem C10_unmatched_bbox_defaults (cid ipath : String) (log : List String)
    (q : QualityResult) (dres : DetectionResult) (pres : PartIdResult)
    (sres : SeverityResult) (h : q.processable = true) (part : PartData)
    (hpart : part ∈ pres.damaged_parts)
    (hnb : ∀ d ∈ dres.detections, d.bbox ≠ part.bbox) :
    ∃ st r g,
      compile_final_report
          ⟨cid, ipath, log, none, some q, some dres, some pres, some sres,
           none⟩ = some st
      ∧ st.final_report = some r
      ∧ r.annotations = some [g]
      ∧ mkAnnot dres.detections part ∈ g.detections
      ∧ (mkAnnot dres.detections part).confidence = 9/10 := by
  have hfind : dres.detections.find? (fun d => d.bbox == part.bbox)
      = none := by
    rw [List.find?_eq_none]
    intro d hd
    simp only [beq_iff_eq]
    exact hnb d hd
  unfold compile_final_report
  simp only [h, Bool.not_true, Bool.false_eq_true, if_false]
  refine ⟨_, _, _, rfl, rfl, rfl, ?_, ?_⟩
  · exact List.mem_map_of_mem _ hpart
  · unfold mkAnnot
    rw [hfind]
    rfl

/-- Witness for C10: with the single detection `c10det` and the single part
match `c10part` (whose boxes differ), the produced annotation's confidence
is the 0.9 default. -/
theorem C10_unmatched_bbox_defaults_witness :
    ∃ st r g,
      compile_final_report
          ⟨"CLM-2", "uploads/car.jpg", [], none, some cOkQuality,
           some ⟨[c10det], 10, 200⟩, some ⟨[c10part], 300⟩,
           some cOkSeverity, none⟩ = some st
      ∧ st.final_report = some r
      ∧ r.annotations = some [g]
      ∧ mkAnnot [c10det] c10part ∈ g.detections
      ∧ (mkAnnot [c10det] c10part).confidence = 9/10 :=
  C10_unmatched_bbox_defaults "CLM-2" "uploads/car.jpg" [] cOkQuality
    ⟨[c10det], 10, 200⟩ ⟨[c10part], 300⟩ cOkSeverity rfl c10part
    (List.mem_cons_self _ _)
    (by
      intro d hd hbb
      rcases List.mem_cons.mp hd with rfl | hf
      · simp only [c10det, c10part, Box.mk.injEq] at hbb
        norm_num at hbb
      · simp at hf)

end VDA
